import Mathlib

/-!
Shallow embedding of `streamlit_app.py`, a three-stage Snowflake-SQL to
ANSI-SQL conversion pipeline built on a linear LangGraph state graph.

The external LLM (`llm.invoke`) is the spec's TransformationService: an
opaque capability `(system prompt, user message) -> response text`.  A call
that raises in Python is modelled by `Except.error` carrying `str(e)`.
Likewise Python's `json.loads` is modelled as an abstract fallible parser
`String -> Except String JValue` (an exception is `Except.error (str e)`).
All pipeline code is translated directly from the source file.
-/

/-- JSON-like values, the possible results of `json.loads`: Python's
`None`/`bool`/number/`str`/`list`/`dict` outcomes.  (Numbers are modelled
as integers; no claim depends on numeric content.) -/
inductive JValue where
  | null : JValue
  | bool : Bool → JValue
  | num : Int → JValue
  | str : String → JValue
  | arr : List JValue → JValue
  | obj : List (String × JValue) → JValue

/-- Minimal JSON string escaping, as performed by `json.dumps` on the
characters that matter here (quote, backslash, control characters). -/
def escapeJsonChar (c : Char) : String :=
  if c = '"' then "\\\""
  else if c = '\\' then "\\\\"
  else if c = '\n' then "\\n"
  else if c = '\t' then "\\t"
  else if c = '\r' then "\\r"
  else String.singleton c

def escapeJsonString (s : String) : String :=
  s.data.foldl (fun acc c => acc ++ escapeJsonChar c) ""

def quoteJson (s : String) : String :=
  "\"" ++ escapeJsonString s ++ "\""

/-- Indentation padding used by `json.dumps(..., indent=2)`. -/
def jsonPad (lvl : Nat) : String :=
  String.mk (List.replicate (lvl * 2) ' ')

mutual

/-- `json.dumps(v, indent=2)` at nesting level `lvl` (source line 174). -/
def dumpsIndent : Nat → JValue → String
  | _, JValue.null => "null"
  | _, JValue.bool true => "true"
  | _, JValue.bool false => "false"
  | _, JValue.num n => toString n
  | _, JValue.str s => quoteJson s
  | _, JValue.arr [] => "[]"
  | lvl, JValue.arr (x :: xs) =>
      "[\n" ++ dumpsArrItems (lvl + 1) (x :: xs) ++ "\n" ++ jsonPad lvl ++ "]"
  | _, JValue.obj [] => "\x7b\x7d"
  | lvl, JValue.obj (f :: fs) =>
      "\x7b\n" ++ dumpsObjItems (lvl + 1) (f :: fs) ++ "\n" ++ jsonPad lvl ++ "\x7d"

def dumpsArrItems : Nat → List JValue → String
  | _, [] => ""
  | lvl, [v] => jsonPad lvl ++ dumpsIndent lvl v
  | lvl, v :: w :: rest =>
      jsonPad lvl ++ dumpsIndent lvl v ++ ",\n" ++ dumpsArrItems lvl (w :: rest)

def dumpsObjItems : Nat → List (String × JValue) → String
  | _, [] => ""
  | lvl, [(k, v)] => jsonPad lvl ++ quoteJson k ++ ": " ++ dumpsIndent lvl v
  | lvl, (k, v) :: f :: rest =>
      jsonPad lvl ++ quoteJson k ++ ": " ++ dumpsIndent lvl v ++ ",\n" ++
        dumpsObjItems lvl (f :: rest)

end

/-- `json.dumps` applied to the `ast` state field, which may still be the
initial Python `None` (serialized as `null`). -/
def dumpsAst : Option JValue → String
  | none => "null"
  | some v => dumpsIndent 0 v

/-- Boolean test that `pat` is a prefix of `l` (character lists). -/
def isPrefixB : List Char → List Char → Bool
  | [], _ => true
  | _ :: _, [] => false
  | p :: ps, c :: cs => p == c && isPrefixB ps cs

/-- Boolean test that `pat` occurs as a contiguous sublist of the second
argument. -/
def isSubListB (pat : List Char) : List Char → Bool
  | [] => pat.isEmpty
  | b :: bs => isPrefixB pat (b :: bs) || isSubListB pat bs

/-- Python's substring test `pat in s` (source line 347). -/
def strContainsSub (s pat : String) : Bool :=
  isSubListB pat.data s.data

/-- The characters Python's `str.strip()` removes. -/
def isPyWhitespace (c : Char) : Bool :=
  c = ' ' || c = '\t' || c = '\n' || c = '\r' || c = '\x0b' || c = '\x0c'

/-- Python's `str.strip()`: drop whitespace from both ends
(source lines 183 and 276). -/
def pyStrip (s : String) : String :=
  String.mk (((s.data.dropWhile isPyWhitespace).reverse.dropWhile
    isPyWhitespace).reverse)

def systemPromptParse : String :=
  String.intercalate "\n" [
    "",
    "    Role: You are a SQL parsing assistant, and you are an expert at building Abstract Syntax Trees (ASTs) from Snowflake SQL.",
    "",
    "    Task: Convert a single Snowflake SQL query into a valid JSON AST.",
    "",
    "    Input Parameters:",
    "     - A Snowflake SQL query as raw text.",
    "",
    "    Step-by-Step Guidelines:",
    "     1) Read the Snowflake SQL query thoroughly, noting any clauses like SELECT, FROM, JOIN, WHERE, GROUP BY, HAVING, ORDER BY, etc.",
    "     2) Identify specialized Snowflake clauses or keywords (e.g., QUALIFY, ILIKE, ASOF JOIN, MATCH_CONDITION, etc.) and represent them in the JSON structure.",
    "     3) For each clause or sub-expression, create a JSON key-value pair. For example:",
    "        \x7b",
    "           \"type\": \"select_statement\",",
    "           \"select_list\": [...],",
    "           \"from_clause\": \x7b...\x7d,",
    "           \"where_clause\": \x7b...\x7d,",
    "           \"order_by_clause\": [...],",
    "           ...",
    "        \x7d",
    "     4) If the query contains multiple conditions, nest them in arrays or objects that reflect the logical structure.",
    "     5) Include table aliases, function calls, and subqueries. For instance, if there\x27s a subquery in the FROM clause, represent it as a nested object.",
    "     6) Do not omit or rearrange essential elements, even if they seem unimportant. The AST must mirror the Snowflake query\x27s logic.",
    "     7) Avoid commentary or partial text. Output MUST be strictly valid JSON with no code fences, markdown, or explanation.",
    "     8) If a portion of the query is ambiguous, choose a consistent JSON representation that preserves the query\x27s intent.",
    "     9) For example, you might have a nested structure like:",
    "        \x7b",
    "           \"type\": \"join_expression\",",
    "           \"join_type\": \"ASOF\",",
    "           \"left_table\": \x7b...\x7d,",
    "           \"right_table\": \x7b...\x7d,",
    "           \"match_condition\": \x7b...\x7d",
    "        \x7d",
    "        if the Snowflake query uses an ASOF JOIN with MATCH_CONDITION.",
    "    10) Remain consistent in naming keys across the entire AST. For instance, if you call the main query node \"select_statement\", do not rename it to \"query_statement\" midway.",
    "    11) Output only the JSON data structure, ensuring it can be directly parsed by a standard JSON parser.",
    "    12) If you are unsure about certain Snowflake keywords, model them as logically as possible. For instance, treat ILIKE as a variant of a comparison operator, or store it under some \"operator\" key.",
    "    13) Do not wrap your JSON in triple backticks (\x60\x60\x60), or any other code fence formatting.",
    "    14) Do not prepend or append any text before or after the JSON. The final answer should be raw JSON.",
    "",
    "    Output:",
    "     - A strictly valid JSON AST reflecting all clauses in the input Snowflake SQL.",
    "",
    "    Important Notes:",
    "     - The final answer must be valid JSON with no syntax errors.",
    "     - Be sure to capture subselects, join conditions, aliases, function calls, window functions, and ordering.",
    "     - No additional explanation, commentary, or markdown is allowed.",
    "     - Example minimal structure: \x7b \"type\": \"select_statement\", \"select_list\": [...], \"from_clause\": \x7b...\x7d \x7d",
    "     - Remember that subsequent steps will rely on this AST for translation to ANSI SQL, so completeness and clarity are crucial.",
    "     - If the query includes multiple statements, each statement should be reflected in the AST, though typically we handle one statement at a time.",
    "     - End your output immediately after the closing brace of the JSON object—nothing else.",
    "    End of prompt.",
    "    "
  ]

def systemPromptTranslate : String :=
  String.intercalate "\n" [
    "",
    "    Role: You are an expert SQL translator, specializing in converting Snowflake SQL to ANSI SQL.",
    "",
    "    Task: Take two inputs:",
    "      (1) the original Snowflake SQL,",
    "      (2) the JSON AST derived from that query,",
    "    and produce logically equivalent ANSI SQL.",
    "",
    "    Input Parameters:",
    "     - Original Snowflake SQL text.",
    "     - JSON AST representing the structure of the same query.",
    "",
    "    Step-by-Step Guidelines:",
    "     1) Read the AST carefully to understand the Snowflake query structure.",
    "     2) Check the original Snowflake SQL if the AST lacks detail or is ambiguous.",
    "     3) Identify any Snowflake-specific features that may not exist in ANSI, such as:",
    "        - ILIKE => use LOWER(column) LIKE LOWER(value)",
    "        - QUALIFY => transform into a WHERE clause on a window function",
    "        - ASOF JOIN or MATCH_CONDITION => emulate with window functions or correlated subqueries",
    "        - TIME or DATE functions unique to Snowflake => approximate using standard SQL if possible",
    "     4) Replace each Snowflake feature with ANSI-friendly logic. Preserve identical filters, ordering, grouping, etc.",
    "     5) If the query references Snowflake UDFs or advanced syntax, replicate them or comment them out if there is no direct ANSI equivalent. Do not silently remove them.",
    "     6) Pay close attention to unusual join types. If Snowflake uses LATERAL or ASOF, approximate them with standard joins or subqueries.",
    "     7) Keep every column, alias, expression, and clause intact. Do not omit or rename columns arbitrarily.",
    "     8) Observe ORDER BY, GROUP BY, or window function syntax that might differ between Snowflake and ANSI.",
    "     9) Provide output only as valid ANSI SQL—no code fences, no markdown, no text beyond the SQL.",
    "    10) Format the query neatly but avoid disclaimers or extra commentary.",
    "    11) If the original query uses semi-structured data (VARIANT, ARRAY), approximate it if possible or ask the user for details if unclear.",
    "    12) For LIMIT usage, consider FETCH FIRST n ROWS ONLY or a similar ANSI approach.",
    "    13) Verify function calls or operators are recognized by ANSI-based engines. If not, approximate them.",
    "    14) Avoid re-outputting AST or JSON. Only return the final ANSI SQL statement.",
    "    15) Re-check syntax for correctness. Missing commas or mismatched parentheses are unacceptable.",
    "    16) In advanced transformations (like time-based correlations), consider using WITH clauses to maintain clarity.",
    "    17) If the Snowflake query has specific conditions, replicate them exactly in ANSI.",
    "    18) If encountering special Snowflake data types, see if you can find an ANSI equivalent. Otherwise, ask the user for details if needed.",
    "    19) Output only the final SQL. The user should be able to run it directly in a typical ANSI environment.",
    "    20) If the Snowflake SQL references multiple statements or semicolons, handle them or unify them. Typically produce one main statement if only one was in the input.",
    "",
    "    Output:",
    "     - A single ANSI SQL statement, logically identical to the original Snowflake query. It should be Syntactically correct with respect to ANSI.",
    "",
    "    Important Notes:",
    "     - The final query must run on standard ANSI SQL with no errors.",
    "     - Do not produce code fences, JSON, or extra commentary—only the SQL statement.",
    "     - This result will be validated by a subsequent step, so thoroughness matters.",
    "     - You may use subqueries or CTEs to replicate advanced Snowflake constructs.",
    "     - The final ANSI SQL must return the same data or rows as the Snowflake query would.",
    "     - End your output right after the final SQL statement—nothing else.",
    "    End of prompt.",
    "    "
  ]

def systemPromptValidate : String :=
  String.intercalate "\n" [
    "",
    "    Role: You are an advanced SQL validator, ensuring both syntax correctness and logical equivalence.",
    "",
    "    Task: Compare the original Snowflake SQL with the newly produced ANSI SQL to verify they match in logic, structure, and results. If corrections are needed, output ONLY the final corrected ANSI SQL. Otherwise, output the given ANSI SQL as is.",
    "",
    "    Input Parameters:",
    "     - The original Snowflake SQL.",
    "     - The ANSI SQL from the translator.",
    "",
    "    Step-by-Step Guidelines:",
    "     1) Read the original Snowflake SQL thoroughly: consider SELECT, FROM, JOIN, WHERE, GROUP BY, HAVING, QUALIFY, ORDER BY, and window functions.",
    "     2) Look for special Snowflake features (ILIKE, QUALIFY, ASOF JOIN, MATCH_CONDITION, etc.) and confirm that their logic was addressed in the candidate ANSI SQL.",
    "     3) Examine each portion of the candidate SQL to ensure it retains the same columns, aliases, and filters as the original Snowflake query.",
    "     4) If something is missing or incorrectly transformed, you must fix it. For example:",
    "        - ASOF JOIN might need a correlated subquery or window function approach.",
    "        - ILIKE => LOWER(column) LIKE LOWER(value).",
    "        - QUALIFY => a WHERE filter on a window function’s result.",
    "     5) Validate syntax for a typical ANSI SQL engine",
    "     6) No invalid keywords, unmatched parentheses, or code fences.",
    "     7) If any time-based or row-based logic in Snowflake was lost, reintroduce it. The same applies to function calls or data types.",
    "     8) Check that no columns are omitted or renamed incorrectly. The final result set must match the original.",
    "     9) If the translator used code fences, markdown, or extraneous text, remove them so only the final query remains.",
    "     10) Ensure any ORDER BY exactly mirrors the original sorting.",
    "    11) If the ANSI SQL Query lacks a crucial clause or incorrectly adds an extraneous one, correct that.",
    "    12) Inspect subqueries or CTEs introduced by the translator. Confirm they still match the original query’s semantics.",
    "    13) If the user’s Snowflake query implies advanced logic (like tie-breaking or partial joins), confirm the translator approximated it. If not, fix it.",
    "    14) After aligning logic, check for final formatting issues. The query should be valid in ANSI SQL with no random line breaks or leftover commentary.",
    "    15) Return ONLY the final corrected ANSI SQL if changes are required. If not, return the candidate SQL. No code fences, no explanations.",
    "    16) You may unify multiple statements or subqueries if that replicates the Snowflake logic precisely.",
    "    17) The final statement must produce the same rows or data the Snowflake query would.",
    "    18) The basic data types as defined by the ANSI standard are:",
    "         -CHARACTER",
    "         -VARCHAR",
    "         -CHARACTER LARGE OBJECT",
    "         -NCHAR",
    "         -NCHAR VARYING",
    "         -BINARY",
    "         -BINARY VARYING",
    "         -BINARY LARGE OBJECT",
    "         -NUMERIC",
    "         -DECIMAL",
    "         -SMALLINT",
    "         -INTEGER",
    "         -BIGINT",
    "         -FLOAT",
    "         -REAL",
    "         -DOUBLE PRECISION",
    "         -BOOLEAN",
    "         -DATE",
    "         -TIME",
    "         -TIMESTAMP",
    "         -INTERVAL",
    "",
    "    Output:",
    "     - Strictly the corrected/validated ANSI SQL statement. No additional commentary, code fences, or markdown. It should be Syntactically correct with respect to ANSI SQL.",
    "     ",
    "",
    "    Important Notes:",
    "     - Logic must match exactly, so the same data is returned.",
    "     - Keep the final statement free of extraneous text—only the SQL.",
    "     - If the translator missed a nuance, reintroduce subqueries or window functions as needed.",
    "     - End your output immediately after the final SQL statement—no trailing lines.",
    "     - The final validated ANSI SQL should replicate the original Snowflake results.",
    "     - Overall, the ANSI Sql Query should produce same results as the initial Snowflake SQL Query. Let\x27s say initial Snowflake Query returns 10 rows of data as output, translated ANSI SQL should also return the same 10 rows of data in the same order and should be ANSI compliant i.e the datatypes, keywords, etc. everything use should be ANSI Compliant.",
    "     - The final output that will be produced should be correct syntactically and semantically. Keywords should be ANSI Compliant.",
    "    End of prompt.",
    "    "
  ]

/-- The pipeline's shared state, `ConverterState` (source lines 26-29):
`input_query` the original request, `ast` the structured intermediate form
(initially Python `None`, modelled as `Option.none`), `final_sql` the
output text. -/
structure ConverterState where
  input_query : String
  ast : Option JValue
  final_sql : String

/-- The partial state a LangGraph node returns: only the keys present in
the returned dict are merged back into the shared state. -/
structure StateUpdate where
  input_query : Option String := none
  ast : Option JValue := none
  final_sql : Option String := none

/-- LangGraph's merge of a node's returned dict into the shared state:
absent keys leave the corresponding field unchanged (the `ConverterState`
channels have no reducer, so present keys overwrite). -/
def applyUpdate (s : ConverterState) (u : StateUpdate) : ConverterState :=
  { input_query := u.input_query.getD s.input_query,
    ast := match u.ast with
      | some v => some v
      | none => s.ast,
    final_sql := u.final_sql.getD s.final_sql }

/-- The TransformationService boundary: `llm.invoke` with a system prompt
and a user message, returning response text or raising. -/
abbrev Oracle := String → String → Except String String

/-- Python's `json.loads`: parses text to a JSON value or raises. -/
abbrev JsonLoads := String → Except String JValue

/-- The structured extractor: the `try: json.loads ... except` block of
`parse_sql_to_ast` (source lines 105-108).  A parse failure is contained
as the ErrorDocument `{"error": str(e), "raw_response": response.content}`;
it never propagates. -/
def extractStructured (jl : JsonLoads) (content : String) : JValue :=
  match jl content with
  | Except.ok v => v
  | Except.error e =>
      JValue.obj [("error", JValue.str e), ("raw_response", JValue.str content)]

/-- Stage 1's user message (source line 96). -/
def parseUserMsg (query : String) : String :=
  "SQL to parse:\n" ++ query

/-- Stage 2's user message (source lines 170-175). -/
def translateUserMsg (original_sql : String) (ast_data : Option JValue) : String :=
  "Original Snowflake SQL:\n" ++ original_sql ++ "\n\n" ++
    "AST:\n" ++ dumpsAst ast_data

/-- Stage 3's user message (source lines 263-268). -/
def validateUserMsg (original_sql candidate_sql : String) : String :=
  "Original Snowflake SQL:\n" ++ original_sql ++ "\n\n" ++
    "ANSI SQL:\n" ++ candidate_sql

/-- Stage 1, `parse_sql_to_ast` (source lines 38-112): submit the query to
the service, run the response through the structured extractor, and return
a dict writing only the `ast` key. -/
def parse_sql_to_ast (llm : Oracle) (jl : JsonLoads) (state : ConverterState) :
    Except String StateUpdate :=
  let query := state.input_query
  let user_message := parseUserMsg query
  match llm systemPromptParse user_message with
  | Except.error e => Except.error e
  | Except.ok content =>
      Except.ok { ast := some (extractStructured jl content) }

/-- Stage 2, `translate_ast_to_ansi` (source lines 114-187): submit the
original SQL plus the serialized AST, strip the response, and return a
dict writing only the `final_sql` key. -/
def translate_ast_to_ansi (llm : Oracle) (state : ConverterState) :
    Except String StateUpdate :=
  let ast_data := state.ast
  let original_sql := state.input_query
  let user_message := translateUserMsg original_sql ast_data
  match llm systemPromptTranslate user_message with
  | Except.error e => Except.error e
  | Except.ok content =>
      Except.ok { final_sql := some (pyStrip content) }

/-- Stage 3, `validate_ansi_sql` (source lines 189-280): submit the
original SQL plus the stage-2 candidate, strip the response, and return a
dict writing only the `final_sql` key. -/
def validate_ansi_sql (llm : Oracle) (state : ConverterState) :
    Except String StateUpdate :=
  let candidate_sql := state.final_sql
  let original_sql := state.input_query
  let user_message := validateUserMsg original_sql candidate_sql
  match llm systemPromptValidate user_message with
  | Except.error e => Except.error e
  | Except.ok content =>
      Except.ok { final_sql := some (pyStrip content) }

/-- The nodes of the LangGraph `workflow` (source lines 282-293), plus the
`END` terminal marker. -/
inductive Node where
  | ParserAgent : Node
  | TranslationAgent : Node
  | SyntaxValidatorAgent : Node
  | ENDNode : Node
deriving DecidableEq

/-- `workflow.set_entry_point("ParserAgent")` (source line 289). -/
def entryPoint : Node := Node.ParserAgent

/-- The `workflow.add_edge` calls (source lines 291-293): each node has
exactly one unconditional successor. -/
def nextNode : Node → Option Node
  | Node.ParserAgent => some Node.TranslationAgent
  | Node.TranslationAgent => some Node.SyntaxValidatorAgent
  | Node.SyntaxValidatorAgent => some Node.ENDNode
  | Node.ENDNode => none

/-- Run a single node's function on the current state (the
`workflow.add_node` registrations, source lines 285-287). -/
def runNode (llm : Oracle) (jl : JsonLoads) :
    Node → ConverterState → Except String StateUpdate
  | Node.ParserAgent, s => parse_sql_to_ast llm jl s
  | Node.TranslationAgent, s => translate_ast_to_ansi llm s
  | Node.SyntaxValidatorAgent, s => validate_ansi_sql llm s
  | Node.ENDNode, _ => Except.ok {}

/-- Execute the compiled graph from a node, merging each node's update and
following the unique outgoing edge until `END`.  The fuel bounds the walk;
`4` steps suffice for this linear three-node graph. -/
def runFrom (llm : Oracle) (jl : JsonLoads) :
    Nat → Node → ConverterState → Except String ConverterState
  | 0, _, s => Except.ok s
  | _, Node.ENDNode, s => Except.ok s
  | Nat.succ k, n, s =>
      match runNode llm jl n s with
      | Except.error e => Except.error e
      | Except.ok u =>
          match nextNode n with
          | none => Except.ok (applyUpdate s u)
          | some m => runFrom llm jl k m (applyUpdate s u)

/-- `app = workflow.compile()`; `app.invoke` (source lines 295, 310). -/
def app_invoke (llm : Oracle) (jl : JsonLoads) (s : ConverterState) :
    Except String ConverterState :=
  runFrom llm jl 4 entryPoint s

/-- The initial state built by `convert_snowflake_to_ansi`
(source lines 303-308). -/
def initialState (sql_query : String) : ConverterState :=
  { input_query := sql_query, ast := none, final_sql := "" }

/-- `convert_snowflake_to_ansi` (source lines 299-314): run the pipeline
and return the final SQL together with the intermediate artifacts, the AST
under the single fixed key `"AST"` (`final_state.get("ast", {})` defaults
to the empty dict). -/
def convert_snowflake_to_ansi (llm : Oracle) (jl : JsonLoads) (sql_query : String) :
    Except String (String × List (String × JValue)) :=
  match app_invoke llm jl (initialState sql_query) with
  | Except.error e => Except.error e
  | Except.ok final_state =>
      Except.ok (final_state.final_sql,
        [("AST", final_state.ast.getD (JValue.obj []))])

/-- A chat-history entry as the UI stores it (source line 376):
exactly the keys `question`, `answer`, `intermediate`. -/
structure ChatEntry where
  question : String
  answer : String
  intermediate : List (String × JValue)

/-- The `try/except` around `convert_snowflake_to_ansi` in the chat
handler (source lines 367-376): on an exception the answer becomes
`f"Error: {e}"` and the intermediate artifacts are the empty dict. -/
def handleUserQuestion (llm : Oracle) (jl : JsonLoads) (q : String) : ChatEntry :=
  match convert_snowflake_to_ansi llm jl q with
  | Except.ok (ansi_result, intermediate_results) =>
      { question := q, answer := ansi_result, intermediate := intermediate_results }
  | Except.error e =>
      { question := q, answer := "Error: " ++ e, intermediate := [] }

/-- One chat turn's effect on `st.session_state.interactive_chat_history`
(source line 377): append the single new entry. -/
def chatStep (llm : Oracle) (jl : JsonLoads) (hist : List ChatEntry) (q : String) :
    List ChatEntry :=
  hist ++ [handleUserQuestion llm jl q]

/-- How the history replay renders an entry's answer. -/
inductive Rendered where
  | errorBox : String → Rendered
  | codeBlock : String → Rendered
deriving DecidableEq

/-- The replay classifier (source lines 347-350): an entry is shown with
`st.error` when its answer contains the substring `"Error"`, otherwise
with `st.code`. -/
def renderAnswer (c : ChatEntry) : Rendered :=
  if strContainsSub c.answer "Error" then Rendered.errorBox c.answer
  else Rendered.codeBlock c.answer

/-! ## Inversion and unfolding lemmas for the pipeline -/

theorem parse_sql_to_ast_inv {llm : Oracle} {jl : JsonLoads} {s : ConverterState}
    {u : StateUpdate} (h : parse_sql_to_ast llm jl s = Except.ok u) :
    ∃ content, llm systemPromptParse (parseUserMsg s.input_query) = Except.ok content ∧
      u = { ast := some (extractStructured jl content) } := by
  unfold parse_sql_to_ast at h
  dsimp only at h
  cases hc : llm systemPromptParse (parseUserMsg s.input_query) with
  | error e => rw [hc] at h; cases h
  | ok content =>
      rw [hc] at h
      exact ⟨content, rfl, (Except.ok.inj h).symm⟩

theorem translate_ast_to_ansi_inv {llm : Oracle} {s : ConverterState}
    {u : StateUpdate} (h : translate_ast_to_ansi llm s = Except.ok u) :
    ∃ content, llm systemPromptTranslate (translateUserMsg s.input_query s.ast) =
        Except.ok content ∧
      u = { final_sql := some (pyStrip content) } := by
  unfold translate_ast_to_ansi at h
  dsimp only at h
  cases hc : llm systemPromptTranslate (translateUserMsg s.input_query s.ast) with
  | error e => rw [hc] at h; cases h
  | ok content =>
      rw [hc] at h
      exact ⟨content, rfl, (Except.ok.inj h).symm⟩

theorem validate_ansi_sql_inv {llm : Oracle} {s : ConverterState}
    {u : StateUpdate} (h : validate_ansi_sql llm s = Except.ok u) :
    ∃ content, llm systemPromptValidate (validateUserMsg s.input_query s.final_sql) =
        Except.ok content ∧
      u = { final_sql := some (pyStrip content) } := by
  unfold validate_ansi_sql at h
  dsimp only at h
  cases hc : llm systemPromptValidate (validateUserMsg s.input_query s.final_sql) with
  | error e => rw [hc] at h; cases h
  | ok content =>
      rw [hc] at h
      exact ⟨content, rfl, (Except.ok.inj h).symm⟩

/-- Executing the compiled linear graph is the in-order composition of the
three stage functions with LangGraph's state merge in between. -/
theorem app_invoke_eq (llm : Oracle) (jl : JsonLoads) (s0 : ConverterState) :
    app_invoke llm jl s0 =
      match parse_sql_to_ast llm jl s0 with
      | Except.error e => Except.error e
      | Except.ok u1 =>
        match translate_ast_to_ansi llm (applyUpdate s0 u1) with
        | Except.error e => Except.error e
        | Except.ok u2 =>
          match validate_ansi_sql llm (applyUpdate (applyUpdate s0 u1) u2) with
          | Except.error e => Except.error e
          | Except.ok u3 =>
              Except.ok (applyUpdate (applyUpdate (applyUpdate s0 u1) u2) u3) := by
  cases h1 : parse_sql_to_ast llm jl s0 with
  | error e => simp [app_invoke, entryPoint, runFrom, runNode, nextNode, h1]
  | ok u1 =>
    cases h2 : translate_ast_to_ansi llm (applyUpdate s0 u1) with
    | error e => simp [app_invoke, entryPoint, runFrom, runNode, nextNode, h1, h2]
    | ok u2 =>
      cases h3 : validate_ansi_sql llm (applyUpdate (applyUpdate s0 u1) u2) with
      | error e => simp [app_invoke, entryPoint, runFrom, runNode, nextNode, h1, h2, h3]
      | ok u3 => simp [app_invoke, entryPoint, runFrom, runNode, nextNode, h1, h2, h3]

/-- A successful pipeline run decomposes into three successful stage runs. -/
theorem app_invoke_ok_inv {llm : Oracle} {jl : JsonLoads} {s0 sF : ConverterState}
    (h : app_invoke llm jl s0 = Except.ok sF) :
    ∃ u1 u2 u3,
      parse_sql_to_ast llm jl s0 = Except.ok u1 ∧
      translate_ast_to_ansi llm (applyUpdate s0 u1) = Except.ok u2 ∧
      validate_ansi_sql llm (applyUpdate (applyUpdate s0 u1) u2) = Except.ok u3 ∧
      sF = applyUpdate (applyUpdate (applyUpdate s0 u1) u2) u3 := by
  rw [app_invoke_eq] at h
  split at h
  · cases h
  · rename_i u1 h1
    split at h
    · cases h
    · rename_i u2 h2
      split at h
      · cases h
      · rename_i u3 h3
        exact ⟨u1, u2, u3, h1, h2, h3, (Except.ok.inj h).symm⟩

/-- Any string of the form `"Error: " ++ e` contains `"Error"`. -/
theorem errorPrefixContains (e : String) :
    strContainsSub ("Error: " ++ e) "Error" = true := by
  have hd : ("Error: " ++ e).data =
      'E' :: 'r' :: 'r' :: 'o' :: 'r' :: ':' :: ' ' :: e.data := rfl
  simp [strContainsSub, hd, isSubListB, isPrefixB]

/-! ## Concrete service and parser stubs used at concrete inputs -/

/-- Deterministic TransformationService stub for the spec's example
scenario: the parse request gets the structured form, both other stages
get the translated SQL unchanged. -/
def stubLLM3 : Oracle := fun _sys user =>
  if user = parseUserMsg "SELECT a ILIKE \x27x\x27" then
    Except.ok "\x7b\"type\":\"select_statement\"\x7d"
  else Except.ok "SELECT LOWER(a) LIKE LOWER(\x27x\x27)"

/-- A `json.loads` stub that parses exactly the stub response above. -/
def stubJL3 : JsonLoads := fun t =>
  if t = "\x7b\"type\":\"select_statement\"\x7d" then
    Except.ok (JValue.obj [("type", JValue.str "select_statement")])
  else Except.error "Expecting value: line 1 column 1 (char 0)"

/-- A service stub that always answers the same padded text. -/
def constLLM : Oracle := fun _sys _user => Except.ok " SELECT 1 "

/-- A parser stub that always succeeds with a fixed structured document. -/
def okJL : JsonLoads := fun _t =>
  Except.ok (JValue.obj [("type", JValue.str "select_statement")])

/-- A parser stub that always raises (Python error message for empty
input). -/
def failJL : JsonLoads := fun _t =>
  Except.error "Expecting value: line 1 column 1 (char 0)"

/-- A service stub that always returns the empty response. -/
def emptyLLM : Oracle := fun _sys _user => Except.ok ""

/-- A service stub whose calls themselves fail (ServiceUnavailable). -/
def failLLM : Oracle := fun _sys _user => Except.error "boom"

/-- A service stub producing a legitimate SQL answer that happens to
contain the word `Error`. -/
def errSqlLLM : Oracle := fun _sys _user =>
  Except.ok "SELECT \x27Error\x27 AS msg"

/-- A sample initial pipeline state. -/
def st0 : ConverterState := initialState "SELECT 1"

/-- A state agreeing with `st0` on `input_query` only. -/
def st0x : ConverterState :=
  { input_query := "SELECT 1", ast := some JValue.null, final_sql := "junk" }

/-! ## Claims -/

set_option maxRecDepth 8000

/-- Claim C1: for every text input to stage 1's structured extraction, the
extractor never raises past its boundary: it returns either the parsed
structured tree, or an ErrorDocument of shape
`(error, raw_response)` carrying the failure reason and the raw response
text verbatim; and given any service response the stage succeeds and the
graph advances unconditionally to the Transformation node. -/
theorem extractor_never_raises_and_pipeline_advances
    (jl : JsonLoads) (content : String) (llm : Oracle) (s : ConverterState) :
    ((∃ v, jl content = Except.ok v ∧ extractStructured jl content = v) ∨
      (∃ e, jl content = Except.error e ∧
        extractStructured jl content =
          JValue.obj [("error", JValue.str e),
            ("raw_response", JValue.str content)])) ∧
    (∀ resp, llm systemPromptParse (parseUserMsg s.input_query) = Except.ok resp →
      parse_sql_to_ast llm jl s =
        Except.ok { ast := some (extractStructured jl resp) } ∧
      nextNode Node.ParserAgent = some Node.TranslationAgent) := by
  constructor
  · cases hc : jl content with
    | ok v => exact Or.inl ⟨v, rfl, by simp [extractStructured, hc]⟩
    | error e => exact Or.inr ⟨e, rfl, by simp [extractStructured, hc]⟩
  · intro resp hr
    refine ⟨?_, rfl⟩
    unfold parse_sql_to_ast
    dsimp only
    rw [hr]

theorem extractor_never_raises_witness :
    parse_sql_to_ast constLLM failJL st0 =
      Except.ok { ast := some (extractStructured failJL " SELECT 1 ") } ∧
    nextNode Node.ParserAgent = some Node.TranslationAgent :=
  (extractor_never_raises_and_pipeline_advances failJL " SELECT 1 " constLLM st0).2
    " SELECT 1 " rfl

/-- Claim C2 counterexample: on the non-empty input `"SELECT 1"`, with a
service whose responses are all empty, `convert` returns a SUCCESS whose
result text is empty (the spec's own §7 "EmptyOutput" sharp edge), so the
claim "never returns a success whose result_text is empty" is false. -/
theorem convert_empty_success_cex :
    ("SELECT 1" : String).isEmpty = false ∧
    convert_snowflake_to_ansi emptyLLM failJL "SELECT 1" =
      Except.ok ("", [("AST", JValue.obj
        [("error", JValue.str "Expecting value: line 1 column 1 (char 0)"),
         ("raw_response", JValue.str "")])]) := by
  exact ⟨by rfl, by rfl⟩

/-- Claim C2 (amended): for every non-empty `input_text`, `convert` either
returns a request-level failure (which carries no result), or returns a
success whose `result_text` is exactly the validator's whitespace-stripped
response — which may be empty; emptiness is not rejected. -/
theorem convert_failure_or_validator_result
    (llm : Oracle) (jl : JsonLoads) (q : String) (_hq : q ≠ "") :
    (∃ e, convert_snowflake_to_ansi llm jl q = Except.error e) ∨
    (∃ (sF : ConverterState) (resp : String),
      app_invoke llm jl (initialState q) = Except.ok sF ∧
      convert_snowflake_to_ansi llm jl q =
        Except.ok (sF.final_sql, [("AST", sF.ast.getD (JValue.obj []))]) ∧
      sF.final_sql = pyStrip resp ∧
      (∃ s2 : ConverterState,
        llm systemPromptValidate (validateUserMsg s2.input_query s2.final_sql) =
          Except.ok resp ∧
        validate_ansi_sql llm s2 = Except.ok { final_sql := some (pyStrip resp) } ∧
        sF = applyUpdate s2 { final_sql := some (pyStrip resp) })) := by
  cases hA : app_invoke llm jl (initialState q) with
  | error e =>
      exact Or.inl ⟨e, by unfold convert_snowflake_to_ansi; rw [hA]⟩
  | ok sF =>
      right
      obtain ⟨u1, u2, u3, h1, h2, h3, hsF⟩ := app_invoke_ok_inv hA
      obtain ⟨resp, hresp, hu3⟩ := validate_ansi_sql_inv h3
      subst hu3
      refine ⟨sF, resp, ?_, ?_, ?_, ?_⟩
      · rfl
      · unfold convert_snowflake_to_ansi; rw [hA]
      · subst hsF; rfl
      · exact ⟨applyUpdate (applyUpdate (initialState q) u1) u2, hresp, h3, hsF⟩

theorem convert_failure_or_validator_result_witness :
    (∃ e, convert_snowflake_to_ansi constLLM okJL "SELECT 1" = Except.error e) ∨
    (∃ (sF : ConverterState) (resp : String),
      app_invoke constLLM okJL (initialState "SELECT 1") = Except.ok sF ∧
      convert_snowflake_to_ansi constLLM okJL "SELECT 1" =
        Except.ok (sF.final_sql, [("AST", sF.ast.getD (JValue.obj []))]) ∧
      sF.final_sql = pyStrip resp ∧
      (∃ s2 : ConverterState,
        constLLM systemPromptValidate (validateUserMsg s2.input_query s2.final_sql) =
          Except.ok resp ∧
        validate_ansi_sql constLLM s2 =
          Except.ok { final_sql := some (pyStrip resp) } ∧
        sF = applyUpdate s2 { final_sql := some (pyStrip resp) })) :=
  convert_failure_or_validator_result constLLM okJL "SELECT 1" (by decide)

/-- Claim C3: with the example-scenario TransformationService stub,
`convert` on `SELECT a ILIKE 'x'` returns the translated statement
together with the artifacts mapping exposing the structured form under the
single fixed key `"AST"`. -/
theorem convert_example_scenario :
    convert_snowflake_to_ansi stubLLM3 stubJL3 "SELECT a ILIKE \x27x\x27" =
      Except.ok ("SELECT LOWER(a) LIKE LOWER(\x27x\x27)",
        [("AST", JValue.obj [("type", JValue.str "select_statement")])]) := by
  rfl

/-- Claim C4: frame conditions of a full run.  Stage 1's returned update
writes only the `ast` key; stage 2's and stage 3's updates write only the
`final_sql` key; hence across one run `input_query` is never mutated and
`ast` (the structured form) is written exactly once, by stage 1. -/
theorem state_frame_conditions :
    (∀ (llm : Oracle) (jl : JsonLoads) (s : ConverterState) (u : StateUpdate),
      parse_sql_to_ast llm jl s = Except.ok u →
        u.input_query = none ∧ u.final_sql = none ∧ u.ast.isSome = true) ∧
    (∀ (llm : Oracle) (s : ConverterState) (u : StateUpdate),
      translate_ast_to_ansi llm s = Except.ok u →
        u.input_query = none ∧ u.ast = none ∧ u.final_sql.isSome = true) ∧
    (∀ (llm : Oracle) (s : ConverterState) (u : StateUpdate),
      validate_ansi_sql llm s = Except.ok u →
        u.input_query = none ∧ u.ast = none ∧ u.final_sql.isSome = true) ∧
    (∀ (llm : Oracle) (jl : JsonLoads) (s0 sF : ConverterState),
      app_invoke llm jl s0 = Except.ok sF →
      ∃ u1 u2 u3,
        parse_sql_to_ast llm jl s0 = Except.ok u1 ∧
        translate_ast_to_ansi llm (applyUpdate s0 u1) = Except.ok u2 ∧
        validate_ansi_sql llm (applyUpdate (applyUpdate s0 u1) u2) = Except.ok u3 ∧
        (applyUpdate s0 u1).input_query = s0.input_query ∧
        (applyUpdate (applyUpdate s0 u1) u2).input_query = s0.input_query ∧
        sF.input_query = s0.input_query ∧
        u1.ast.isSome = true ∧
        (applyUpdate (applyUpdate s0 u1) u2).ast = (applyUpdate s0 u1).ast ∧
        sF.ast = (applyUpdate s0 u1).ast) := by
  refine ⟨?_, ?_, ?_, ?_⟩
  · intro llm jl s u h
    obtain ⟨content, _, hu⟩ := parse_sql_to_ast_inv h
    subst hu; exact ⟨rfl, rfl, rfl⟩
  · intro llm s u h
    obtain ⟨content, _, hu⟩ := translate_ast_to_ansi_inv h
    subst hu; exact ⟨rfl, rfl, rfl⟩
  · intro llm s u h
    obtain ⟨content, _, hu⟩ := validate_ansi_sql_inv h
    subst hu; exact ⟨rfl, rfl, rfl⟩
  · intro llm jl s0 sF hA
    obtain ⟨u1, u2, u3, h1, h2, h3, hsF⟩ := app_invoke_ok_inv hA
    obtain ⟨c1, _, hu1⟩ := parse_sql_to_ast_inv h1
    obtain ⟨c2, _, hu2⟩ := translate_ast_to_ansi_inv h2
    obtain ⟨c3, _, hu3⟩ := validate_ansi_sql_inv h3
    subst hu1; subst hu2; subst hu3; subst hsF
    exact ⟨_, _, _, h1, h2, h3, rfl, rfl, rfl, rfl, rfl, rfl⟩

theorem state_frame_conditions_witness :
    ({ ast := some (extractStructured okJL " SELECT 1 ") } : StateUpdate).input_query
        = none ∧
    ({ ast := some (extractStructured okJL " SELECT 1 ") } : StateUpdate).final_sql
        = none ∧
    (({ ast := some (extractStructured okJL " SELECT 1 ") } : StateUpdate).ast).isSome
        = true :=
  state_frame_conditions.1 constLLM okJL st0
    { ast := some (extractStructured okJL " SELECT 1 ") } rfl

/-- Claim C5: stage 3 unconditionally overwrites `final_sql` with its own
whitespace-stripped service response, whatever the stage-2 candidate was;
after a full run the terminal `final_sql` is exactly that stripped
response, and the stage-2 value is no longer observable. -/
theorem validator_overwrites_unconditionally :
    (∀ (llm : Oracle) (s : ConverterState) (resp : String),
      llm systemPromptValidate (validateUserMsg s.input_query s.final_sql) =
          Except.ok resp →
        validate_ansi_sql llm s = Except.ok { final_sql := some (pyStrip resp) } ∧
        (applyUpdate s { final_sql := some (pyStrip resp) }).final_sql =
          pyStrip resp) ∧
    (∀ (llm : Oracle) (jl : JsonLoads) (s0 sF : ConverterState),
      app_invoke llm jl s0 = Except.ok sF →
      ∃ (s2 : ConverterState) (resp : String),
        llm systemPromptValidate (validateUserMsg s2.input_query s2.final_sql) =
          Except.ok resp ∧
        validate_ansi_sql llm s2 = Except.ok { final_sql := some (pyStrip resp) } ∧
        sF = applyUpdate s2 { final_sql := some (pyStrip resp) } ∧
        sF.final_sql = pyStrip resp) := by
  constructor
  · intro llm s resp h
    constructor
    · unfold validate_ansi_sql
      dsimp only
      rw [h]
    · rfl
  · intro llm jl s0 sF hA
    obtain ⟨u1, u2, u3, h1, h2, h3, hsF⟩ := app_invoke_ok_inv hA
    obtain ⟨resp, hresp, hu3⟩ := validate_ansi_sql_inv h3
    subst hu3
    refine ⟨applyUpdate (applyUpdate s0 u1) u2, resp, hresp, h3, hsF, ?_⟩
    subst hsF; rfl

theorem validator_overwrites_unconditionally_witness :
    validate_ansi_sql constLLM st0x =
      Except.ok { final_sql := some (pyStrip " SELECT 1 ") } ∧
    (applyUpdate st0x { final_sql := some (pyStrip " SELECT 1 ") }).final_sql =
      pyStrip " SELECT 1 " :=
  validator_overwrites_unconditionally.1 constLLM st0x " SELECT 1 " rfl

/-- Claim C6: the compiled graph is strictly linear with unconditional
transitions Parser → Translation → Validator → END starting at the Parser
entry point; after stage 1 the structured form is populated (possibly as
an ErrorDocument) before Transformation begins; and every terminal state
of a completed run has `final_sql` assigned by the validator stage. -/
theorem pipeline_linear_state_machine :
    entryPoint = Node.ParserAgent ∧
    nextNode Node.ParserAgent = some Node.TranslationAgent ∧
    nextNode Node.TranslationAgent = some Node.SyntaxValidatorAgent ∧
    nextNode Node.SyntaxValidatorAgent = some Node.ENDNode ∧
    nextNode Node.ENDNode = none ∧
    (∀ (llm : Oracle) (jl : JsonLoads) (s0 : ConverterState) (u1 : StateUpdate),
      parse_sql_to_ast llm jl s0 = Except.ok u1 →
        ((applyUpdate s0 u1).ast).isSome = true) ∧
    (∀ (llm : Oracle) (jl : JsonLoads) (s0 sF : ConverterState),
      app_invoke llm jl s0 = Except.ok sF →
      ∃ u1 u2 u3,
        parse_sql_to_ast llm jl s0 = Except.ok u1 ∧
        translate_ast_to_ansi llm (applyUpdate s0 u1) = Except.ok u2 ∧
        validate_ansi_sql llm (applyUpdate (applyUpdate s0 u1) u2) = Except.ok u3 ∧
        sF = applyUpdate (applyUpdate (applyUpdate s0 u1) u2) u3 ∧
        ∃ resp, u3 = { final_sql := some (pyStrip resp) } ∧
          sF.final_sql = pyStrip resp) := by
  refine ⟨rfl, rfl, rfl, rfl, rfl, ?_, ?_⟩
  · intro llm jl s0 u1 h1
    obtain ⟨c1, _, hu1⟩ := parse_sql_to_ast_inv h1
    subst hu1; rfl
  · intro llm jl s0 sF hA
    obtain ⟨u1, u2, u3, h1, h2, h3, hsF⟩ := app_invoke_ok_inv hA
    obtain ⟨resp, hresp, hu3⟩ := validate_ansi_sql_inv h3
    refine ⟨u1, u2, u3, h1, h2, h3, hsF, resp, hu3, ?_⟩
    subst hu3; subst hsF; rfl

theorem pipeline_linear_state_machine_witness :
    ((applyUpdate st0
        { ast := some (extractStructured okJL " SELECT 1 ") }).ast).isSome = true :=
  (pipeline_linear_state_machine.2.2.2.2.2.1) constLLM okJL st0
    { ast := some (extractStructured okJL " SELECT 1 ") } rfl

/-- Claim C7 counterexample: with a service whose call itself fails
(`failLLM`, raising `"boom"`), the request aborts and exactly one history
entry is recorded — but that entry consists of exactly the three
components `question`/`answer`/`intermediate` and carries NO `succeeded`
flag: failure marking exists only in the replay's substring test on the
result text, which fires identically on a genuinely successful conversion
whose SQL merely contains the word `Error`. -/
theorem history_entry_shape_cex :
    convert_snowflake_to_ansi failLLM okJL "SELECT 2" = Except.error "boom" ∧
    chatStep failLLM okJL [] "SELECT 2" =
      [{ question := "SELECT 2", answer := "Error: boom", intermediate := [] }] ∧
    renderAnswer
        { question := "SELECT 2", answer := "Error: boom", intermediate := [] } =
      Rendered.errorBox "Error: boom" ∧
    (∃ r arts, convert_snowflake_to_ansi errSqlLLM okJL "SELECT 3" =
        Except.ok (r, arts)) ∧
    renderAnswer (handleUserQuestion errSqlLLM okJL "SELECT 3") =
      Rendered.errorBox "SELECT \x27Error\x27 AS msg" := by
  refine ⟨by rfl, by rfl, by rfl, ⟨"SELECT \x27Error\x27 AS msg",
    [("AST", JValue.obj [("type", JValue.str "select_statement")])], by rfl⟩, by rfl⟩

/-- Claim C7 (amended): when the TransformationService call itself fails,
the failure aborts the pipeline and is surfaced verbatim as a
request-level failure; the chat handler records the failed attempt as
exactly one appended history entry of shape
`(question, answer, intermediate)` — request, result `"Error: " ++ e`,
empty artifacts — with no stored `succeeded` flag; the replay renders it
as a failure via the substring test. -/
theorem service_failure_single_history_entry
    (llm : Oracle) (jl : JsonLoads) (hist : List ChatEntry) (q e : String)
    (h : convert_snowflake_to_ansi llm jl q = Except.error e) :
    handleUserQuestion llm jl q =
      { question := q, answer := "Error: " ++ e, intermediate := [] } ∧
    chatStep llm jl hist q =
      hist ++ [{ question := q, answer := "Error: " ++ e, intermediate := [] }] ∧
    (chatStep llm jl hist q).length = hist.length + 1 ∧
    renderAnswer { question := q, answer := "Error: " ++ e, intermediate := [] } =
      Rendered.errorBox ("Error: " ++ e) ∧
    (∀ e1, llm systemPromptParse (parseUserMsg q) = Except.error e1 →
      convert_snowflake_to_ansi llm jl q = Except.error e1) := by
  have hh : handleUserQuestion llm jl q =
      { question := q, answer := "Error: " ++ e, intermediate := [] } := by
    unfold handleUserQuestion
    rw [h]
  refine ⟨hh, ?_, ?_, ?_, ?_⟩
  · unfold chatStep
    rw [hh]
  · simp [chatStep]
  · simp [renderAnswer, errorPrefixContains]
  · intro e1 h1
    have hp : parse_sql_to_ast llm jl (initialState q) = Except.error e1 := by
      unfold parse_sql_to_ast
      dsimp only
      rw [show (initialState q).input_query = q from rfl, h1]
    unfold convert_snowflake_to_ansi
    rw [app_invoke_eq, hp]

theorem service_failure_single_history_entry_witness :
    handleUserQuestion failLLM okJL "SELECT 2" =
      { question := "SELECT 2", answer := "Error: " ++ "boom", intermediate := [] } ∧
    chatStep failLLM okJL [] "SELECT 2" =
      [] ++
        [{ question := "SELECT 2", answer := "Error: " ++ "boom", intermediate := [] }] ∧
    (chatStep failLLM okJL [] "SELECT 2").length = ([] : List ChatEntry).length + 1 ∧
    renderAnswer
        { question := "SELECT 2", answer := "Error: " ++ "boom", intermediate := [] } =
      Rendered.errorBox ("Error: " ++ "boom") ∧
    (∀ e1, failLLM systemPromptParse (parseUserMsg "SELECT 2") = Except.error e1 →
      convert_snowflake_to_ansi failLLM okJL "SELECT 2" = Except.error e1) :=
  service_failure_single_history_entry failLLM okJL [] "SELECT 2" "boom" rfl

/-- Claim C8: each stage is a function of the service, the parser and
only its declared per-request state fields — stage 1 reads only
`input_query`, stage 2 only `input_query` and `ast`, stage 3 only
`input_query` and `final_sql`; a chat turn appends a function of the
request alone, independent of the existing history; and two runs of
`convert` on the same input are identical. -/
theorem stages_deterministic_no_hidden_state :
    (∀ (llm : Oracle) (jl : JsonLoads) (s1 s2 : ConverterState),
      s1.input_query = s2.input_query →
        parse_sql_to_ast llm jl s1 = parse_sql_to_ast llm jl s2) ∧
    (∀ (llm : Oracle) (s1 s2 : ConverterState),
      s1.input_query = s2.input_query → s1.ast = s2.ast →
        translate_ast_to_ansi llm s1 = translate_ast_to_ansi llm s2) ∧
    (∀ (llm : Oracle) (s1 s2 : ConverterState),
      s1.input_query = s2.input_query → s1.final_sql = s2.final_sql →
        validate_ansi_sql llm s1 = validate_ansi_sql llm s2) ∧
    (∀ (llm : Oracle) (jl : JsonLoads) (hist : List ChatEntry) (q : String),
      chatStep llm jl hist q = hist ++ [handleUserQuestion llm jl q]) ∧
    (∀ (llm : Oracle) (jl : JsonLoads) (q : String),
      convert_snowflake_to_ansi llm jl q = convert_snowflake_to_ansi llm jl q) := by
  refine ⟨?_, ?_, ?_, fun _ _ _ _ => rfl, fun _ _ _ => rfl⟩
  · intro llm jl s1 s2 hq
    unfold parse_sql_to_ast
    dsimp only
    rw [hq]
  · intro llm s1 s2 hq ha
    unfold translate_ast_to_ansi
    dsimp only
    rw [hq, ha]
  · intro llm s1 s2 hq hf
    unfold validate_ansi_sql
    dsimp only
    rw [hq, hf]

theorem stages_deterministic_witness :
    parse_sql_to_ast constLLM okJL st0 = parse_sql_to_ast constLLM okJL st0x :=
  stages_deterministic_no_hidden_state.1 constLLM okJL st0 st0x rfl

/-- Claim C9: `convert` imposes no non-emptiness precondition: for an
empty or whitespace-only input all three stages still execute in order and
`convert` returns stage 3's stripped response together with the structured
artifact. -/
theorem convert_accepts_empty_input
    (llm : Oracle) (jl : JsonLoads) (q r1 r2 r3 : String)
    (_hq : pyStrip q = "")
    (h1 : llm systemPromptParse (parseUserMsg q) = Except.ok r1)
    (h2 : llm systemPromptTranslate
        (translateUserMsg q (some (extractStructured jl r1))) = Except.ok r2)
    (h3 : llm systemPromptValidate (validateUserMsg q (pyStrip r2)) =
        Except.ok r3) :
    convert_snowflake_to_ansi llm jl q =
      Except.ok (pyStrip r3, [("AST", extractStructured jl r1)]) := by
  have hp : parse_sql_to_ast llm jl (initialState q) =
      Except.ok { ast := some (extractStructured jl r1) } := by
    unfold parse_sql_to_ast
    dsimp only
    rw [show (initialState q).input_query = q from rfl, h1]
  have ht : translate_ast_to_ansi llm (applyUpdate (initialState q)
      { ast := some (extractStructured jl r1) }) =
      Except.ok { final_sql := some (pyStrip r2) } := by
    unfold translate_ast_to_ansi
    dsimp only
    rw [show (applyUpdate (initialState q)
          { ast := some (extractStructured jl r1) }).input_query = q from rfl,
        show (applyUpdate (initialState q)
          { ast := some (extractStructured jl r1) }).ast =
          some (extractStructured jl r1) from rfl, h2]
  have hv : validate_ansi_sql llm (applyUpdate (applyUpdate (initialState q)
      { ast := some (extractStructured jl r1) })
      { final_sql := some (pyStrip r2) }) =
      Except.ok { final_sql := some (pyStrip r3) } := by
    unfold validate_ansi_sql
    dsimp only
    rw [show (applyUpdate (applyUpdate (initialState q)
          { ast := some (extractStructured jl r1) })
          { final_sql := some (pyStrip r2) }).input_query = q from rfl,
        show (applyUpdate (applyUpdate (initialState q)
          { ast := some (extractStructured jl r1) })
          { final_sql := some (pyStrip r2) }).final_sql = pyStrip r2 from rfl, h3]
  unfold convert_snowflake_to_ansi
  rw [app_invoke_eq, hp]
  dsimp only
  rw [ht]
  dsimp only
  rw [hv]
  rfl

theorem convert_accepts_empty_input_witness :
    convert_snowflake_to_ansi constLLM okJL "" =
      Except.ok (pyStrip " SELECT 1 ",
        [("AST", extractStructured okJL " SELECT 1 ")]) :=
  convert_accepts_empty_input constLLM okJL "" " SELECT 1 " " SELECT 1 "
    " SELECT 1 " rfl rfl rfl rfl

/-- Claim C10: a stored history entry carries no explicit success flag;
replay classifies an entry as a failure exactly when its answer contains
the substring `"Error"`; consequently a successful conversion whose SQL
text contains `Error` is displayed as a failure. -/
theorem history_replay_substring_classification :
    (∀ c : ChatEntry,
      (renderAnswer c = Rendered.errorBox c.answer ↔
        strContainsSub c.answer "Error" = true) ∧
      (strContainsSub c.answer "Error" = false →
        renderAnswer c = Rendered.codeBlock c.answer)) ∧
    (∃ r arts,
      convert_snowflake_to_ansi errSqlLLM okJL "SELECT status FROM logs" =
        Except.ok (r, arts) ∧ strContainsSub r "Error" = true) ∧
    renderAnswer (handleUserQuestion errSqlLLM okJL "SELECT status FROM logs") =
      Rendered.errorBox "SELECT \x27Error\x27 AS msg" := by
  refine ⟨?_, ⟨"SELECT \x27Error\x27 AS msg",
    [("AST", JValue.obj [("type", JValue.str "select_statement")])],
    by rfl, by rfl⟩, by rfl⟩
  intro c
  constructor
  · cases hb : strContainsSub c.answer "Error" with
    | true => simp [renderAnswer, hb]
    | false => simp [renderAnswer, hb]
  · intro hb
    simp [renderAnswer, hb]

theorem history_replay_substring_classification_witness :
    renderAnswer { question := "q", answer := "SELECT 1", intermediate := [] } =
      Rendered.codeBlock "SELECT 1" :=
  ((history_replay_substring_classification.1
      { question := "q", answer := "SELECT 1", intermediate := [] }).2) (by rfl)
